import Mathlib

/-!
Verification of the authenticated request client (`useApi` / `fetchApi` /
`fetchCore`) of the taller-frontend repository.

The JavaScript hook is embedded shallowly:
* a JSON value is the inductive `Json`;
* an HTTP response observed by one attempt is a `Response` (its status and
  the result of `response.json()`, `none` meaning the body is not parseable
  JSON);
* the environment of a call is a function `Nat → Response` giving the
  response that attempt `i` would observe;
* `fetchCore` mirrors the inner `fetchCore` function: status classification,
  error-message extraction, the 204/DELETE null result, body parsing;
* `fetchApi` mirrors the retry loop, returning a `Trace` recording the final
  outcome, the number of network attempts performed, the backoff delays (in
  milliseconds, as in the source) inserted between attempts, and the request
  issued by each attempt.
-/

namespace TallerApi

/-- A JSON value, as produced by `response.json()` or passed as a request
body. -/
inductive Json where
  | null : Json
  | bool : Bool → Json
  | num : Int → Json
  | str : String → Json
  | arr : List Json → Json
  | obj : List (String × Json) → Json
deriving Repr

/-- JavaScript truthiness of a value in our `Json` fragment: `null`,
`false`, `0` and `""` are falsy; every array and object is truthy.  Used for
`if (token)`, `body ? ... : null` and `errorData.message || ...` in the
source. -/
def Json.truthy : Json → Bool
  | .null => false
  | .bool b => b
  | .num n => n != 0
  | .str s => s != ""
  | .arr _ => true
  | .obj _ => true

/-- JavaScript property access `v.message`-style on a JSON value: the
field's value on an object (`none`, i.e. `undefined`, for a missing key),
`undefined` on a non-null primitive or an array, and a thrown `TypeError`
on `null` — `null.message` does not evaluate to `undefined` but throws
`TypeError: Cannot read properties of null (reading 'message')`. -/
def Json.getProp : Json → String → Except String (Option Json)
  | .null, k => .error ("Cannot read properties of null (reading '" ++ k ++ "')")
  | .obj fs, k => .ok (fs.lookup k)
  | _, _ => .ok none

mutual

/-- JavaScript string coercion `String(v)` applied by `new Error(v)` when
the extracted message is not a string: arrays join their elements with
commas (`null` joining as the empty string), objects print as
`[object Object]`. -/
def Json.jsToString : Json → String
  | .null => "null"
  | .bool b => if b then "true" else "false"
  | .num n => toString n
  | .str s => s
  | .arr xs => String.intercalate "," (jsToStringElems xs)
  | .obj _ => "[object Object]"

/-- Element-wise coercion for `Json.jsToString` on arrays; a `null` element
joins as the empty string, as in `Array.prototype.toString`. -/
def jsToStringElems : List Json → List String
  | [] => []
  | .null :: xs => "" :: jsToStringElems xs
  | x :: xs => x.jsToString :: jsToStringElems xs

end

/-- Escaping of `"` and `\` inside a JSON string literal, the part of
`JSON.stringify`'s string quoting these request bodies can exercise. -/
def escapeJsonString (s : String) : String :=
  String.join (s.data.map (fun c =>
    if c = '\\' then "\\\\"
    else if c = '"' then "\\\""
    else String.singleton c))

mutual

/-- `JSON.stringify` on our `Json` fragment, used by the source to
serialize a request body. -/
def Json.stringify : Json → String
  | .null => "null"
  | .bool b => if b then "true" else "false"
  | .num n => toString n
  | .str s => "\"" ++ escapeJsonString s ++ "\""
  | .arr xs => "[" ++ String.intercalate "," (stringifyElems xs) ++ "]"
  | .obj fs => "\x7b" ++ String.intercalate "," (stringifyFields fs) ++ "\x7d"

/-- `JSON.stringify` applied to the elements of an array. -/
def stringifyElems : List Json → List String
  | [] => []
  | x :: xs => x.stringify :: stringifyElems xs

/-- `JSON.stringify` applied to the fields of an object. -/
def stringifyFields : List (String × Json) → List String
  | [] => []
  | (k, v) :: fs => ("\"" ++ escapeJsonString k ++ "\":" ++ v.stringify) :: stringifyFields fs

end

/-- The HTTP response one attempt observes: the numeric status and the
outcome of `response.json()` (`none` when the body is not parseable JSON,
so that the promise returned by `response.json()` rejects). -/
structure Response where
  status : Nat
  jsonBody : Option Json
deriving Repr

/-- `response.ok`: status in the inclusive range 200–299. -/
def Response.ok (r : Response) : Bool :=
  decide (200 ≤ r.status) && decide (r.status ≤ 299)

/-- The message of the error thrown on a non-ok, non-401 response:
`errorData.message || ·API call failed with status: ${response.status}·`,
where `errorData` is the parsed JSON body, replaced by
`{ message: 'Unknown server error' }` when the body fails to parse.  When
the body parses to `null`, evaluating `errorData.message` itself throws a
`TypeError`, which propagates to the retry loop in place of the `Error`;
both error kinds reach the loop as their message string, so the propagated
message is returned uniformly here. -/
def errorBodyMessage (jsonBody : Option Json) (status : Nat) : String :=
  let errorData : Json :=
    match jsonBody with
    | some j => j
    | none => Json.obj [("message", Json.str "Unknown server error")]
  match errorData.getProp "message" with
  | .error tyMsg => tyMsg
  | .ok (some m) =>
      if m.truthy then m.jsToString else "API call failed with status: " ++ toString status
  | .ok none => "API call failed with status: " ++ toString status

/-- One network attempt, after the request has been sent: the body of the
source's `fetchCore` from the `response.status === 401` check onward.
`Except.error` is a thrown `Error` carrying its message string. -/
def fetchCore (method : String) (resp : Response) : Except String (Option Json) :=
  if resp.status = 401 then
    .error "Unauthorized. Please log in again."
  else if resp.ok = false then
    .error (errorBodyMessage resp.jsonBody resp.status)
  else if resp.status = 204 ∨ method = "DELETE" then
    .ok none
  else
    match resp.jsonBody with
    | some j => .ok (some j)
    | none => .error "SyntaxError: Unexpected token"

/-- Whether `pat` is a prefix of `s`, on character lists. -/
def isPrefixOfList : List Char → List Char → Bool
  | [], _ => true
  | _ :: _, [] => false
  | a :: as, b :: bs => a == b && isPrefixOfList as bs

/-- Whether `pat` occurs as a contiguous substring of `s`, on character
lists. -/
def containsSubList (pat : List Char) : List Char → Bool
  | [] => isPrefixOfList pat []
  | c :: rest => isPrefixOfList pat (c :: rest) || containsSubList pat rest

/-- `s.includes(pat)` of JavaScript strings: substring containment.  The
retry loop applies it as `error.message.includes('Unauthorized')`. -/
def includesSub (s pat : String) : Bool :=
  containsSubList pat.data s.data

/-- The fixed base address the hook imports from `../constants`: the
constants module declares `export const BASE_URL =
·http://localhost:8080/api/v1·` (the same value the duplicated client in
`App.jsx` uses). -/
def BASE_URL : String := "http://localhost:8080/api/v1"

/-- The request handed to `fetch`: target address, method, header list and
the serialized body (`none` is JavaScript's `null` body). -/
structure Request where
  url : String
  method : String
  headers : List (String × String)
  body : Option String
deriving Repr, DecidableEq

/-- Header construction in `fetchApi`: always `Content-Type:
application/json`, plus `Authorization: Bearer <token>` when the token is
truthy (present and non-empty). -/
def mkHeaders (token : Option String) : List (String × String) :=
  match token with
  | some t =>
      if t != "" then
        [("Content-Type", "application/json"), ("Authorization", "Bearer " ++ t)]
      else
        [("Content-Type", "application/json")]
  | none => [("Content-Type", "application/json")]

/-- The request `fetchApi` constructs once, before the loop: the base
address concatenated with the endpoint, the given method, the headers, and
`body ? JSON.stringify(body) : null`. -/
def mkRequest (token : Option String) (endpoint method : String) (body : Option Json) : Request :=
  { url := BASE_URL ++ endpoint
    method := method
    headers := mkHeaders token
    body :=
      match body with
      | some b => if b.truthy then some b.stringify else none
      | none => none }

/-- The outcome of a `fetchApi` call: a returned value (`success`, holding
a JSON value or `null`), a thrown error (`failure`, holding its message),
or `undef` when the loop body never runs and the function returns
JavaScript `undefined`. -/
inductive FetchResult where
  | success : Option Json → FetchResult
  | failure : String → FetchResult
  | undef : FetchResult
deriving Repr

/-- The observable trace of one `fetchApi` call: its outcome, how many
network attempts it performed, the backoff delays (milliseconds) inserted
between consecutive attempts, and the request issued by each attempt. -/
structure Trace where
  result : FetchResult
  attempts : Nat
  delays : List Nat
  requests : List Request
deriving Repr

/-- The retry loop `for (let i = 0; i < retries; i++)` of `fetchApi`,
unrolled on fuel: `i` is the current loop index, and `fuel` the number of
remaining iterations (`retries.toNat - i` at the top-level call, so the
`i === retries - 1` re-throw check fires exactly on the iteration with
`fuel = 1` when `retries > 0`).  On a caught error the loop re-throws when
this is the last attempt or the message contains `"Unauthorized"`;
otherwise it sleeps `2^i * 1000` milliseconds and retries. -/
def fetchLoop (req : Request) (env : Nat → Response) (retries : Int) (i : Nat) :
    Nat → Trace
  | 0 => ⟨.undef, 0, [], []⟩
  | fuel + 1 =>
    match fetchCore req.method (env i) with
    | .ok v => ⟨.success v, 1, [], [req]⟩
    | .error msg =>
      if ((i : Int) == retries - 1) || includesSub msg "Unauthorized" then
        ⟨.failure msg, 1, [], [req]⟩
      else
        let t := fetchLoop req env retries (i + 1) fuel
        ⟨t.result, t.attempts + 1, 2 ^ i * 1000 :: t.delays, req :: t.requests⟩

/-- `fetchApi(endpoint, method = 'GET', body = null, retries = 3)` of the
hook `useApi(token)`: builds the request once, then runs the retry loop
against the environment `env` of responses. -/
def fetchApi (token : Option String) (endpoint method : String) (body : Option Json)
    (retries : Int) (env : Nat → Response) : Trace :=
  fetchLoop (mkRequest token endpoint method body) env retries 0 retries.toNat

/-- The backoff delays (milliseconds) inserted by `k` consecutive retried
failures starting at loop index `i`: `2^i · 1000, 2^(i+1) · 1000, …`. -/
def backoffDelays (i k : Nat) : List Nat :=
  (List.range k).map (fun j => 2 ^ (i + j) * 1000)

/-- Environment for the C1 witness: a retryable 500 on the first attempt,
then a 401. -/
def c1envW : Nat → Response := fun n =>
  if n = 0 then ⟨500, some (.obj [("message", .str "boom")])⟩ else ⟨401, none⟩

/-- Environment for the C2 counterexample: a 500 whose error body message
contains the substring `"Unauthorized"`, then a 200. -/
def c2env : Nat → Response := fun n =>
  if n = 0 then ⟨500, some (.obj [("message", .str "Unauthorized operation")])⟩
  else ⟨200, some .null⟩

/-- Environment for the C2 witness: a retryable 500, then a 200. -/
def c2envW : Nat → Response := fun n =>
  if n = 0 then ⟨500, some (.obj [("message", .str "boom")])⟩
  else ⟨200, some .null⟩

/-- Environment for the C4 counterexample: every attempt observes a 200
response with a non-empty JSON object body. -/
def c4env : Nat → Response := fun _ => ⟨200, some (.obj [("a", .num 1)])⟩

/-- Environment for the C10 theorem: a 500 whose error body message contains
the substring `"Unauthorized"`, then a 200. -/
def c10env : Nat → Response := fun n =>
  if n = 0 then ⟨500, some (.obj [("message", .str "Unauthorized operation")])⟩
  else ⟨200, some .null⟩

/-- A trivial always-succeeding environment, used by witnesses. -/
def okEnv : Nat → Response := fun _ => ⟨200, some .null⟩

lemma backoffDelays_zero (i : Nat) : backoffDelays i 0 = [] := rfl

lemma backoffDelays_succ (i k : Nat) :
    backoffDelays i (k + 1) = 2 ^ i * 1000 :: backoffDelays (i + 1) k := by
  unfold backoffDelays
  rw [List.range_succ_eq_map, List.map_cons, List.map_map]
  refine congrArg₂ List.cons (by rw [Nat.add_zero]) ?_
  apply List.map_congr_left
  intro j hj
  simp only [Function.comp_apply]
  rw [show i + j.succ = i + 1 + j from by omega]

lemma fetchLoop_succ_ok (req : Request) (env : Nat → Response) (retries : Int)
    (i fuel : Nat) (v : Option Json)
    (h : fetchCore req.method (env i) = .ok v) :
    fetchLoop req env retries i (fuel + 1) = ⟨.success v, 1, [], [req]⟩ := by
  simp [fetchLoop, h]

lemma fetchLoop_succ_throw (req : Request) (env : Nat → Response) (retries : Int)
    (i fuel : Nat) (msg : String)
    (h : fetchCore req.method (env i) = .error msg)
    (hc : (((i : Int) == retries - 1) || includesSub msg "Unauthorized") = true) :
    fetchLoop req env retries i (fuel + 1) = ⟨.failure msg, 1, [], [req]⟩ := by
  simp [fetchLoop, h, hc]

lemma fetchLoop_succ_retry (req : Request) (env : Nat → Response) (retries : Int)
    (i fuel : Nat) (msg : String)
    (h : fetchCore req.method (env i) = .error msg)
    (hc : (((i : Int) == retries - 1) || includesSub msg "Unauthorized") = false) :
    fetchLoop req env retries i (fuel + 1) =
      ⟨(fetchLoop req env retries (i + 1) fuel).result,
       (fetchLoop req env retries (i + 1) fuel).attempts + 1,
       2 ^ i * 1000 :: (fetchLoop req env retries (i + 1) fuel).delays,
       req :: (fetchLoop req env retries (i + 1) fuel).requests⟩ := by
  simp [fetchLoop, h, hc]

/-- Skipping `k` leading retried failures: if the first `k` attempts
starting at loop index `i` all throw messages not containing
`"Unauthorized"`, and `k` more attempts are allowed, the trace is the later
trace prefixed with `k` attempts, their backoff delays and their requests. -/
lemma fetchLoop_skip (req : Request) (env : Nat → Response) (retries : Int) :
    ∀ (k i fuel : Nat),
      (∀ j, j < k → ∃ msg, fetchCore req.method (env (i + j)) = .error msg ∧
          includesSub msg "Unauthorized" = false) →
      ((i : Int) + k < retries) →
      k ≤ fuel →
      fetchLoop req env retries i fuel =
        ⟨(fetchLoop req env retries (i + k) (fuel - k)).result,
         (fetchLoop req env retries (i + k) (fuel - k)).attempts + k,
         backoffDelays i k ++ (fetchLoop req env retries (i + k) (fuel - k)).delays,
         List.replicate k req ++ (fetchLoop req env retries (i + k) (fuel - k)).requests⟩ := by
  intro k
  induction k with
  | zero =>
      intro i fuel _ _ _
      simp [backoffDelays_zero]
  | succ k ih =>
      intro i fuel hfail hlt hfuel
      obtain ⟨f, rfl⟩ : ∃ f, fuel = f + 1 := ⟨fuel - 1, by omega⟩
      obtain ⟨msg, hmsg, hun⟩ := hfail 0 (Nat.succ_pos k)
      rw [Nat.add_zero] at hmsg
      have hne : ((i : Int) == retries - 1) = false := by
        rw [beq_eq_false_iff_ne]
        intro hEq
        push_cast at hlt
        omega
      have hc : (((i : Int) == retries - 1) || includesSub msg "Unauthorized") = false := by
        rw [hne, hun]
        rfl
      rw [fetchLoop_succ_retry req env retries i f msg hmsg hc]
      have ih' := ih (i + 1) f
        (fun j hj => by
          have := hfail (j + 1) (by omega)
          simpa [Nat.add_assoc, Nat.add_comm 1 j] using this)
        (by push_cast at hlt ⊢; omega)
        (by omega)
      rw [ih']
      have hidx : i + 1 + k = i + (k + 1) := by omega
      have hfuel' : f - k = f + 1 - (k + 1) := by omega
      rw [hidx, hfuel'] at *
      simp [backoffDelays_succ, List.replicate_succ, Nat.add_assoc]

lemma backoffDelays_from_zero (k : Nat) :
    backoffDelays 0 k = (List.range k).map (fun i => 2 ^ i * 1000) := by
  unfold backoffDelays
  simp

/-- Every request recorded in a loop trace is the request built before the
loop. -/
lemma fetchLoop_requests_eq (req : Request) (env : Nat → Response) (retries : Int) :
    ∀ (fuel i : Nat) (r : Request),
      r ∈ (fetchLoop req env retries i fuel).requests → r = req := by
  intro fuel
  induction fuel with
  | zero =>
      intro i r hr
      simp [fetchLoop] at hr
  | succ f ih =>
      intro i r hr
      cases h : fetchCore req.method (env i) with
      | ok v =>
          rw [fetchLoop_succ_ok _ _ _ _ _ _ h] at hr
          simpa using hr
      | error msg =>
          cases hc : (((i : Int) == retries - 1) || includesSub msg "Unauthorized") with
          | true =>
              rw [fetchLoop_succ_throw _ _ _ _ _ _ h hc] at hr
              simpa using hr
          | false =>
              rw [fetchLoop_succ_retry _ _ _ _ _ _ h hc] at hr
              simp only [List.mem_cons] at hr
              rcases hr with rfl | hr
              · rfl
              · exact ih (i + 1) r hr

/-- A loop trace records one request per attempt, and they are all the
request built before the loop. -/
lemma fetchLoop_requests_replicate (req : Request) (env : Nat → Response) (retries : Int) :
    ∀ (fuel i : Nat),
      (fetchLoop req env retries i fuel).requests =
        List.replicate (fetchLoop req env retries i fuel).attempts req := by
  intro fuel
  induction fuel with
  | zero => intro i; rfl
  | succ f ih =>
      intro i
      cases h : fetchCore req.method (env i) with
      | ok v =>
          rw [fetchLoop_succ_ok _ _ _ _ _ _ h]
          rfl
      | error msg =>
          cases hc : (((i : Int) == retries - 1) || includesSub msg "Unauthorized") with
          | true =>
              rw [fetchLoop_succ_throw _ _ _ _ _ _ h hc]
              rfl
          | false =>
              rw [fetchLoop_succ_retry _ _ _ _ _ _ h hc]
              simp [ih (i + 1), List.replicate_succ]

/-- C1: for every `fetchApi` call, with any `retries` value, if the attempt
at loop index `k` observes a response with status 401 (each earlier attempt
having thrown a retried error, so that attempt `k` is reached), then
`fetchApi` throws the `Unauthorized` error immediately: it performs exactly
`k + 1` network attempts, none after the 401. -/
theorem c1_status_401_fails_immediately (token : Option String) (endpoint method : String)
    (body : Option Json) (retries : Int) (env : Nat → Response) (k : Nat)
    (hk : (k : Int) < retries)
    (hprev : ∀ j, j < k → ∃ msg, fetchCore method (env j) = .error msg ∧
        includesSub msg "Unauthorized" = false)
    (h401 : (env k).status = 401) :
    (fetchApi token endpoint method body retries env).result =
        .failure "Unauthorized. Please log in again." ∧
    (fetchApi token endpoint method body retries env).attempts = k + 1 := by
  have hcore : fetchCore (mkRequest token endpoint method body).method (env k) =
      .error "Unauthorized. Please log in again." := by
    show fetchCore method (env k) = _
    simp [fetchCore, h401]
  have hun : includesSub "Unauthorized. Please log in again." "Unauthorized" = true := rfl
  have hskip := fetchLoop_skip (mkRequest token endpoint method body) env retries k 0
    retries.toNat
    (fun j hj => by simpa using hprev j hj)
    (by push_cast; omega)
    (by omega)
  obtain ⟨f, hf⟩ : ∃ f, retries.toNat - k = f + 1 := ⟨retries.toNat - k - 1, by omega⟩
  rw [Nat.zero_add] at hskip
  unfold fetchApi
  rw [hskip, hf, fetchLoop_succ_throw _ _ _ _ _ _ hcore (by rw [hun, Bool.or_true])]
  exact ⟨rfl, Nat.add_comm 1 k⟩

/-- C1 witness: with `retries = 3`, a retryable 500 on attempt 0 and a 401
on attempt 1, the call fails with the `Unauthorized` message after exactly
two attempts. -/
theorem c1_status_401_fails_immediately_witness :
    (fetchApi none "/w" "GET" none 3 c1envW).result =
        FetchResult.failure "Unauthorized. Please log in again." ∧
    (fetchApi none "/w" "GET" none 3 c1envW).attempts = 1 + 1 :=
  c1_status_401_fails_immediately none "/w" "GET" none 3 c1envW 1 (by decide)
    (fun j hj => by
      interval_cases j
      exact ⟨"boom", rfl, rfl⟩)
    rfl

/-- C3: for every call whose first attempt observes a successful (2xx)
response that either has status 204 or belongs to a `DELETE` request,
`fetchApi` returns `null`, whatever the response body holds. -/
theorem c3_delete_or_204_yields_null (token : Option String) (endpoint method : String)
    (body : Option Json) (retries : Int) (env : Nat → Response)
    (hr : 0 < retries)
    (hok : (env 0).ok = true)
    (hcond : (env 0).status = 204 ∨ method = "DELETE") :
    (fetchApi token endpoint method body retries env).result = .success none := by
  have h401 : ¬ (env 0).status = 401 := by
    unfold Response.ok at hok
    simp only [Bool.and_eq_true, decide_eq_true_eq] at hok
    omega
  have hcore : fetchCore (mkRequest token endpoint method body).method (env 0) = .ok none := by
    show fetchCore method (env 0) = _
    unfold fetchCore
    rw [if_neg h401, hok, if_neg (by simp), if_pos hcond]
  obtain ⟨f, hf⟩ : ∃ f, retries.toNat = f + 1 := ⟨retries.toNat - 1, by omega⟩
  unfold fetchApi
  rw [hf, fetchLoop_succ_ok _ _ _ _ _ _ hcore]

/-- C3 witness: a `DELETE` request whose first attempt observes a 200
response with a JSON object body still returns `null`. -/
theorem c3_delete_or_204_yields_null_witness :
    (fetchApi none "/w" "DELETE" none 3 c4env).result = FetchResult.success none :=
  c3_delete_or_204_yields_null none "/w" "DELETE" none 3 c4env (by decide) (by decide)
    (Or.inr rfl)

/-- C9: for every call with `retries ≤ 0` the loop body never runs:
`fetchApi` performs zero network attempts and returns `undefined` rather
than raising any error. -/
theorem c9_nonpositive_retries_undefined (token : Option String) (endpoint method : String)
    (body : Option Json) (retries : Int) (env : Nat → Response)
    (h : retries ≤ 0) :
    fetchApi token endpoint method body retries env = ⟨.undef, 0, [], []⟩ := by
  unfold fetchApi
  rw [show retries.toNat = 0 from by omega]
  rfl

/-- C9 witness: with `retries = 0` against an environment that would
succeed, the call performs no attempt and returns `undefined`. -/
theorem c9_nonpositive_retries_undefined_witness :
    fetchApi none "/w" "GET" none 0 okEnv = ⟨FetchResult.undef, 0, [], []⟩ :=
  c9_nonpositive_retries_undefined none "/w" "GET" none 0 okEnv (by decide)

/-- C2 (counterexample): a call whose only failing attempt is a non-401
failure — a 500 whose error body message happens to contain
`"Unauthorized"` — and whose second attempt would succeed performs 1
attempt, not `min(retries, attempts until first success) = min(3, 2) = 2`
as the claim states. -/
theorem c2_counterexample :
    (c2env 0).status ≠ 401 ∧
    fetchCore "GET" (c2env 0) = .error "Unauthorized operation" ∧
    fetchCore "GET" (c2env 1) = .ok (some Json.null) ∧
    (fetchApi none "/x" "GET" none 3 c2env).attempts = 1 ∧
    min (Int.toNat 3) (1 + 1) = 2 ∧
    (1 : Nat) ≠ 2 :=
  ⟨by decide, rfl, rfl, rfl, rfl, by decide⟩

/-- C2 (amended): for every call in which every failing attempt (among the
first `min(retries, k+1)` attempts) throws an error whose message does not
contain the substring `"Unauthorized"`, and whose first successful attempt,
if any within the retry budget, is attempt index `k`, the number of network
attempts equals `min(retries, k + 1)` and the delay inserted between
attempt `i` and attempt `i + 1` is `2^i · 1000` milliseconds, i.e. `2^i`
seconds (1s, 2s, 4s, …). -/
theorem c2_attempt_count_and_backoff (token : Option String) (endpoint method : String)
    (body : Option Json) (retries : Int) (env : Nat → Response) (k : Nat)
    (hr : 0 ≤ retries)
    (hfail : ∀ j, j < k → (j : Int) < retries →
        ∃ msg, fetchCore method (env j) = .error msg ∧
          includesSub msg "Unauthorized" = false)
    (hsucc : (k : Int) < retries → ∃ v, fetchCore method (env k) = .ok v) :
    (fetchApi token endpoint method body retries env).attempts =
        min retries.toNat (k + 1) ∧
    (fetchApi token endpoint method body retries env).delays =
      (List.range (min retries.toNat (k + 1) - 1)).map (fun i => 2 ^ i * 1000) := by
  by_cases hk : (k : Int) < retries
  · obtain ⟨v, hv⟩ := hsucc hk
    have hv' : fetchCore (mkRequest token endpoint method body).method (env k) = .ok v := hv
    have hskip := fetchLoop_skip (mkRequest token endpoint method body) env retries k 0
      retries.toNat
      (fun j hj => by simpa using hfail j hj (by omega))
      (by push_cast; omega)
      (by omega)
    obtain ⟨f, hf⟩ : ∃ f, retries.toNat - k = f + 1 := ⟨retries.toNat - k - 1, by omega⟩
    rw [Nat.zero_add] at hskip
    unfold fetchApi
    rw [hskip, hf, fetchLoop_succ_ok _ _ _ _ _ _ hv']
    have hmin : min retries.toNat (k + 1) = k + 1 := by omega
    rw [hmin]
    refine ⟨by show 1 + k = k + 1; omega, ?_⟩
    show backoffDelays 0 k ++ [] = _
    rw [List.append_nil, backoffDelays_from_zero]
    rfl
  · rcases Nat.eq_zero_or_pos retries.toNat with h0 | hpos
    · unfold fetchApi
      rw [h0]
      simp [fetchLoop]
    · obtain ⟨p, hp⟩ : ∃ p, retries.toNat = p + 1 := ⟨retries.toNat - 1, by omega⟩
      obtain ⟨msg, hmsg, hun⟩ := hfail p (by omega) (by omega)
      have hmsg' : fetchCore (mkRequest token endpoint method body).method (env p) =
          .error msg := hmsg
      have hskip := fetchLoop_skip (mkRequest token endpoint method body) env retries p 0
        retries.toNat
        (fun j hj => by simpa using hfail j (by omega) (by omega))
        (by push_cast; omega)
        (by omega)
      rw [Nat.zero_add] at hskip
      have hfp : retries.toNat - p = 0 + 1 := by omega
      have hcnd : (((p : Int) == retries - 1) || includesSub msg "Unauthorized") = true := by
        have hbeq : ((p : Int) == retries - 1) = true := by
          rw [beq_iff_eq]
          omega
        rw [hbeq, Bool.true_or]
      unfold fetchApi
      rw [hskip, hfp, fetchLoop_succ_throw _ _ _ _ _ _ hmsg' hcnd]
      have hmin : min retries.toNat (k + 1) = p + 1 := by omega
      rw [hmin]
      refine ⟨by show 1 + p = p + 1; omega, ?_⟩
      show backoffDelays 0 p ++ [] = _
      rw [List.append_nil, backoffDelays_from_zero]
      rfl

/-- C2 (amended) witness: with `retries = 3`, a retryable 500 on attempt 0
and a success on attempt 1, the call performs `min(3, 2) = 2` attempts with
a single 1000 ms delay between them. -/
theorem c2_attempt_count_and_backoff_witness :
    (fetchApi none "/w" "GET" none 3 c2envW).attempts = min (Int.toNat 3) (1 + 1) ∧
    (fetchApi none "/w" "GET" none 3 c2envW).delays =
      (List.range (min (Int.toNat 3) (1 + 1) - 1)).map (fun i => 2 ^ i * 1000) :=
  c2_attempt_count_and_backoff none "/w" "GET" none 3 c2envW 1 (by decide)
    (fun j hj _ => by
      interval_cases j
      exact ⟨"boom", rfl, rfl⟩)
    (fun _ => ⟨some Json.null, rfl⟩)

/-- C4 (counterexample): a `DELETE` request whose response is a 200 (ok,
not 204) carrying the JSON body `{"a": 1}` returns `null`, not the parsed
body the claim requires. -/
theorem c4_counterexample :
    (c4env 0).ok = true ∧
    (c4env 0).status ≠ 204 ∧
    (c4env 0).jsonBody = some (Json.obj [("a", Json.num 1)]) ∧
    (fetchApi none "/x" "DELETE" none 3 c4env).result = FetchResult.success none ∧
    FetchResult.success none ≠ FetchResult.success (some (Json.obj [("a", Json.num 1)])) := by
  refine ⟨by decide, by decide, rfl, rfl, ?_⟩
  intro h
  exact Option.noConfusion (FetchResult.success.inj h)

/-- C4 (amended): for every call whose method is not `DELETE` and whose
first attempt observes a successful (2xx) non-204 response with a parseable
JSON body, `fetchApi` returns exactly that parsed JSON body. -/
theorem c4_success_returns_parsed_body (token : Option String) (endpoint method : String)
    (body : Option Json) (retries : Int) (env : Nat → Response) (j : Json)
    (hr : 0 < retries)
    (hok : (env 0).ok = true)
    (h204 : (env 0).status ≠ 204)
    (hdel : method ≠ "DELETE")
    (hbody : (env 0).jsonBody = some j) :
    (fetchApi token endpoint method body retries env).result = .success (some j) := by
  have h401 : ¬ (env 0).status = 401 := by
    unfold Response.ok at hok
    simp only [Bool.and_eq_true, decide_eq_true_eq] at hok
    omega
  have hcore : fetchCore (mkRequest token endpoint method body).method (env 0) =
      .ok (some j) := by
    show fetchCore method (env 0) = _
    unfold fetchCore
    rw [if_neg h401, hok, if_neg (by simp),
      if_neg (by rintro (h | h); exacts [h204 h, hdel h]), hbody]
  obtain ⟨f, hf⟩ : ∃ f, retries.toNat = f + 1 := ⟨retries.toNat - 1, by omega⟩
  unfold fetchApi
  rw [hf, fetchLoop_succ_ok _ _ _ _ _ _ hcore]

/-- C4 (amended) witness: a `GET` whose first attempt observes a 200 with
body `{"a": 1}` returns that parsed body. -/
theorem c4_success_returns_parsed_body_witness :
    (fetchApi none "/w" "GET" none 3 c4env).result =
        FetchResult.success (some (Json.obj [("a", Json.num 1)])) :=
  c4_success_returns_parsed_body none "/w" "GET" none 3 c4env
    (Json.obj [("a", Json.num 1)]) (by decide) (by decide) (by decide) (by decide) rfl

/-- C5 (counterexample): a non-success, non-401 response whose body parses
as JSON but lacks a `message` field is classified with the
status-interpolated message `"API call failed with status: 500"`, not the
generic `"Unknown server error"` fallback the claim requires; the thrown
error value is that message string alone. -/
theorem c5_counterexample :
    (500 : Nat) ≠ 401 ∧
    Response.ok ⟨500, some (Json.obj [])⟩ = false ∧
    (Json.obj []).getProp "message" = .ok none ∧
    fetchCore "GET" ⟨500, some (Json.obj [])⟩ =
        .error "API call failed with status: 500" ∧
    "API call failed with status: 500" ≠ "Unknown server error" :=
  ⟨by decide, by decide, rfl, rfl, by decide⟩

/-- C5 (amended): for every response with a non-success status other than
401, the thrown error carries exactly a message string: the `message` field
of the parsed JSON error body when that field is present and truthy; the
generic `"Unknown server error"` when the body is not parseable JSON; the
`TypeError` message `"Cannot read properties of null (reading 'message')"`
when the body parses to JSON `null` (accessing `.message` on `null` throws
before any `Error` is built); and the status-interpolated `"API call failed
with status: <status>"` (the only place the numeric status survives) when
the body parses to anything else without a truthy `message` field. -/
theorem c5_error_message_classification (method : String) (resp : Response)
    (h401 : resp.status ≠ 401)
    (hok : resp.ok = false) :
    (resp.jsonBody = none → fetchCore method resp = .error "Unknown server error") ∧
    (resp.jsonBody = some Json.null →
        fetchCore method resp =
          .error "Cannot read properties of null (reading 'message')") ∧
    (∀ j m, resp.jsonBody = some j → j.getProp "message" = .ok (some m) →
        m.truthy = true → fetchCore method resp = .error m.jsToString) ∧
    (∀ j r, resp.jsonBody = some j → j.getProp "message" = .ok r →
        (∀ m, r = some m → m.truthy = false) →
        fetchCore method resp =
          .error ("API call failed with status: " ++ toString resp.status)) := by
  have hcore : fetchCore method resp = .error (errorBodyMessage resp.jsonBody resp.status) := by
    unfold fetchCore
    rw [if_neg h401, hok, if_pos rfl]
  refine ⟨?_, ?_, ?_, ?_⟩
  · intro hb
    rw [hcore, hb]
    rfl
  · intro hb
    rw [hcore, hb]
    rfl
  · intro j m hb hm htr
    rw [hcore, hb]
    simp [errorBodyMessage, hm, htr]
  · intro j r hb hr hm
    rw [hcore, hb]
    cases r with
    | none => simp [errorBodyMessage, hr]
    | some m => simp [errorBodyMessage, hr, hm m rfl]

/-- C5 (amended) witness: an unparseable 500 body yields the generic
message. -/
theorem c5_error_message_classification_witness :
    fetchCore "GET" ⟨500, none⟩ = .error "Unknown server error" :=
  (c5_error_message_classification "GET" ⟨500, none⟩ (by decide) (by decide)).1 rfl

/-- C6: with no token, no request of any attempt carries an `Authorization`
header (the header list is exactly `Content-Type`); with a non-empty token
`t`, every request of every attempt carries exactly
`Authorization: Bearer t` alongside `Content-Type`. -/
theorem c6_authorization_header (endpoint method : String) (body : Option Json)
    (retries : Int) (env : Nat → Response) (t : String) (ht : t ≠ "") :
    (∀ r ∈ (fetchApi none endpoint method body retries env).requests,
        r.headers = [("Content-Type", "application/json")]) ∧
    (∀ r ∈ (fetchApi (some t) endpoint method body retries env).requests,
        r.headers = [("Content-Type", "application/json"),
          ("Authorization", "Bearer " ++ t)]) := by
  constructor
  · intro r hr
    have h := fetchLoop_requests_eq (mkRequest none endpoint method body) env retries
      retries.toNat 0 r hr
    subst h
    rfl
  · intro r hr
    have h := fetchLoop_requests_eq (mkRequest (some t) endpoint method body) env retries
      retries.toNat 0 r hr
    subst h
    show mkHeaders (some t) = _
    simp only [mkHeaders]
    rw [if_pos (by simpa using ht)]

/-- C6 witness: the single request of a one-attempt call with token `"T"`
carries `Authorization: Bearer T`. -/
theorem c6_authorization_header_witness :
    (mkRequest (some "T") "/w" "GET" none).headers =
      [("Content-Type", "application/json"), ("Authorization", "Bearer " ++ "T")] :=
  (c6_authorization_header "/w" "GET" none 1 okEnv "T" (by decide)).2
    (mkRequest (some "T") "/w" "GET" none) (List.mem_singleton.mpr rfl)

/-- C7 (counterexample): the body is serialized only when truthy, not
whenever non-null: the non-null body `false` serializes to `"false"`, yet
the request issued carries a `null` body. -/
theorem c7_counterexample :
    some (Json.bool false) ≠ (none : Option Json) ∧
    Json.stringify (Json.bool false) = "false" ∧
    (fetchApi none "/x" "POST" (some (Json.bool false)) 1 okEnv).requests =
      [mkRequest none "/x" "POST" (some (Json.bool false))] ∧
    (mkRequest none "/x" "POST" (some (Json.bool false))).body = none ∧
    (none : Option String) ≠ some "false" := by
  refine ⟨?_, rfl, rfl, rfl, ?_⟩
  · intro h
    exact Option.noConfusion h
  · intro h
    exact Option.noConfusion h

/-- C7 (amended): every request of every attempt carries `Content-Type:
application/json`, targets the fixed base address concatenated with the
endpoint, and carries the JSON serialization of the body argument when that
argument is truthy (and a `null` body otherwise — in particular for the
falsy bodies `null`, `false`, `0` and `""`). -/
theorem c7_request_construction (token : Option String) (endpoint method : String)
    (body : Option Json) (retries : Int) (env : Nat → Response) :
    ∀ r ∈ (fetchApi token endpoint method body retries env).requests,
      r.headers.lookup "Content-Type" = some "application/json" ∧
      r.url = BASE_URL ++ endpoint ∧
      r.body = (match body with
        | some b => if b.truthy then some b.stringify else none
        | none => none) := by
  intro r hr
  have h := fetchLoop_requests_eq (mkRequest token endpoint method body) env retries
    retries.toNat 0 r hr
  subst h
  refine ⟨?_, rfl, rfl⟩
  cases token with
  | none => rfl
  | some t =>
      show (mkHeaders (some t)).lookup "Content-Type" = _
      simp only [mkHeaders]
      by_cases h : (t != "") = true
      · rw [if_pos h]
        rfl
      · rw [if_neg h]
        rfl

/-- C7 (amended) witness: a one-attempt `POST` with the truthy object body
`{"name": "Personal Finances"}` issues a request with the JSON content
type, the concatenated address and the serialized body. -/
theorem c7_request_construction_witness :
    (mkRequest none "/transaction" "POST"
        (some (Json.obj [("name", Json.str "Personal Finances")]))).headers.lookup
        "Content-Type" = some "application/json" ∧
    (mkRequest none "/transaction" "POST"
        (some (Json.obj [("name", Json.str "Personal Finances")]))).url =
      BASE_URL ++ "/transaction" ∧
    (mkRequest none "/transaction" "POST"
        (some (Json.obj [("name", Json.str "Personal Finances")]))).body =
      some (Json.stringify (Json.obj [("name", Json.str "Personal Finances")])) :=
  c7_request_construction none "/transaction" "POST"
    (some (Json.obj [("name", Json.str "Personal Finances")])) 1 okEnv
    (mkRequest none "/transaction" "POST"
      (some (Json.obj [("name", Json.str "Personal Finances")])))
    (List.mem_singleton.mpr rfl)

/-- C8: the embedding of `useApi` is a pure function of the token closed
over at construction and of the call's arguments — no state is mutated or
retained, so equal arguments yield equal traces by construction — and every
one of the `attempts` network attempts of a call issues exactly the request
built once from that token and body. -/
theorem c8_stateless_identical_requests (token : Option String) (endpoint method : String)
    (body : Option Json) (retries : Int) (env : Nat → Response) :
    (fetchApi token endpoint method body retries env).requests =
      List.replicate (fetchApi token endpoint method body retries env).attempts
        (mkRequest token endpoint method body) :=
  fetchLoop_requests_replicate (mkRequest token endpoint method body) env retries
    retries.toNat 0

/-- C10: retry classification is by error-message text, not HTTP status: a
500 response whose JSON error body message is `"Unauthorized operation"`
(which contains the substring `"Unauthorized"`) makes `fetchApi` propagate
the failure after a single attempt, even though `retries = 3` leaves
attempts remaining and the next attempt would have succeeded. -/
theorem c10_message_text_blocks_retry :
    (c10env 0).status = 500 ∧
    fetchCore "GET" (c10env 0) = .error "Unauthorized operation" ∧
    fetchCore "GET" (c10env 1) = .ok (some Json.null) ∧
    (fetchApi none "/x" "GET" none 3 c10env).result =
        FetchResult.failure "Unauthorized operation" ∧
    (fetchApi none "/x" "GET" none 3 c10env).attempts = 1 ∧
    (1 : Int) < 3 :=
  ⟨rfl, rfl, rfl, rfl, rfl, by decide⟩

end TallerApi
